import Mathlib

/-!
Shallow embedding of the garagesale sales-api product subsystem:
the `product` domain operations (Retrieve/Create/Update/Delete), the
identifier parsing they rely on, the web error-capture step of the
request pipeline, and the product HTTP handlers with the role
middleware gate. The relational store is modelled as explicit lists of
product and sale rows; SQL statements become pure list transformations.
-/

namespace auth

/-- Modelled from the spec: the auth package (not under src/) names the
admin role; the role-restricted routes require membership in it. -/
def RoleAdmin : String := "ADMIN"

/-- Modelled from the spec: Claims carry a subject identifier and a set
of role names, produced by the Authenticator and consumed read-only by
authorization decisions. -/
structure Claims where
  Subject : String
  Roles : List String
deriving Repr, DecidableEq

/-- Modelled from the spec: a caller holds a role when it is a member of
the claims' role-name set. -/
def Claims.HasRole (c : Claims) (role : String) : Bool :=
  c.Roles.contains role

end auth

namespace uuid

/-- Hex-digit test of the google/uuid byte conversion: 0-9, a-f, A-F. -/
def isHex (c : Char) : Bool :=
  (decide (48 ≤ c.toNat) && decide (c.toNat ≤ 57)) ||
  (decide (97 ≤ c.toNat) && decide (c.toNat ≤ 102)) ||
  (decide (65 ≤ c.toNat) && decide (c.toNat ≤ 70))

/-- The 36-character canonical body check of google/uuid Parse: dashes at
offsets 8, 13, 18, 23 and hex digits at the sixteen byte positions. -/
def bodyOK (cs : List Char) : Bool :=
  (List.range 36).all fun i =>
    if i = 8 ∨ i = 13 ∨ i = 18 ∨ i = 23 then cs.getD i 'x' == '-'
    else isHex (cs.getD i 'x')

/-- Validity of an identifier string under google/uuid Parse: canonical
36-character form, urn-prefixed form, braced form (whose trailing byte
the library never checks), or 32 raw hex digits. -/
def ParseOk (s : String) : Bool :=
  let cs := s.data
  if cs.length = 36 then bodyOK cs
  else if cs.length = 45 then
    decide ((cs.take 9).map Char.toLower = "urn:uuid:".data) && bodyOK (cs.drop 9)
  else if cs.length = 38 then bodyOK (cs.drop 1)
  else if cs.length = 32 then cs.all isHex
  else false

end uuid

namespace product

/-- A row of the products table: the stored columns of a product
(the sold/revenue aggregates are derived at read time, never stored). -/
structure ProductRow where
  product_id : String
  name : String
  cost : Int
  quantity : Int
  user_id : String
  date_created : Nat
  date_updated : Nat
deriving Repr, DecidableEq

/-- A row of the sales table, linked to a product by product_id. -/
structure SaleRow where
  sale_id : String
  product_id : String
  quantity : Int
  paid : Int
  date_created : Nat
deriving Repr, DecidableEq

/-- The relational store visible to the product operations. -/
structure DB where
  products : List ProductRow
  sales : List SaleRow
deriving Repr, DecidableEq

/-- The Product entity returned to callers: stored columns plus the
derived sold/revenue aggregates. -/
structure Product where
  ID : String
  Name : String
  Cost : Int
  Quantity : Int
  Sold : Int
  Revenue : Int
  UserID : String
  DateCreated : Nat
  DateUpdated : Nat
deriving Repr, DecidableEq

/-- Input for creating a product: name, cost, quantity. -/
structure NewProduct where
  Name : String
  Cost : Int
  Quantity : Int
deriving Repr, DecidableEq

/-- Input for updating a product: each field independently optional
(nil pointer in the source means the field is absent). -/
structure UpdateProduct where
  Name : Option String
  Cost : Option Int
  Quantity : Option Int
deriving Repr, DecidableEq

/-- The predefined sentinel errors of the product package. -/
inductive Err where
  | ErrNotFound
  | ErrInvalidID
  | ErrForbidden
deriving Repr, DecidableEq

/-- SUM of sale quantities linked to a product id (COALESCE to 0). -/
def soldOf (db : DB) (id : String) : Int :=
  ((db.sales.filter fun s => s.product_id == id).map SaleRow.quantity).sum

/-- SUM of sale amounts paid linked to a product id (COALESCE to 0). -/
def revenueOf (db : DB) (id : String) : Int :=
  ((db.sales.filter fun s => s.product_id == id).map SaleRow.paid).sum

/-- The row selected by WHERE product_id = id. -/
def findRow (db : DB) (id : String) : Option ProductRow :=
  db.products.find? fun r => r.product_id == id

/-- Builds the Product entity of a row, with the read-time aggregates. -/
def rowToProduct (db : DB) (r : ProductRow) : Product :=
  { ID := r.product_id
    Name := r.name
    Cost := r.cost
    Quantity := r.quantity
    Sold := soldOf db r.product_id
    Revenue := revenueOf db r.product_id
    UserID := r.user_id
    DateCreated := r.date_created
    DateUpdated := r.date_updated }

/-- Retrieve gets a single Product: ErrInvalidID when the identifier does
not parse as a UUID, ErrNotFound when no row matches, otherwise the row
with its aggregates. -/
def Retrieve (db : DB) (id : String) : Except Err Product :=
  if uuid.ParseOk id then
    match findRow db id with
    | some r => .ok (rowToProduct db r)
    | none => .error .ErrNotFound
  else
    .error .ErrInvalidID

/-- Create makes a new Product owned by the caller's subject, with both
timestamps set to now; freshID stands for the generated uuid.New().
Returns the entity and the store with the inserted row. -/
def Create (db : DB) (user : auth.Claims) (np : NewProduct) (now : Nat)
    (freshID : String) : Product × DB :=
  let p : Product :=
    { ID := freshID
      Name := np.Name
      Cost := np.Cost
      Quantity := np.Quantity
      Sold := 0
      Revenue := 0
      UserID := user.Subject
      DateCreated := now
      DateUpdated := now }
  let row : ProductRow :=
    { product_id := p.ID
      name := p.Name
      cost := p.Cost
      quantity := p.Quantity
      user_id := p.UserID
      date_created := p.DateCreated
      date_updated := p.DateUpdated }
  (p, { db with products := db.products ++ [row] })

/-- Update modifies a Product: loads it via Retrieve (propagating
ErrInvalidID/ErrNotFound), rejects a caller who is neither admin nor the
owner with ErrForbidden, merges the fields present in the update, sets
date_updated to now, and persists name/cost/quantity/date_updated for
the matching product_id. -/
def Update (db : DB) (user : auth.Claims) (id : String)
    (update : UpdateProduct) (now : Nat) : Except Err DB :=
  match Retrieve db id with
  | .error e => .error e
  | .ok p0 =>
    if !user.HasRole auth.RoleAdmin && p0.UserID != user.Subject then
      .error .ErrForbidden
    else
      let p1 := match update.Name with
        | some n => { p0 with Name := n }
        | none => p0
      let p2 := match update.Cost with
        | some cst => { p1 with Cost := cst }
        | none => p1
      let p3 := match update.Quantity with
        | some q => { p2 with Quantity := q }
        | none => p2
      let p4 := { p3 with DateUpdated := now }
      .ok { db with products := db.products.map (fun r =>
        if r.product_id == id then
          { r with
            name := p4.Name
            cost := p4.Cost
            quantity := p4.Quantity
            date_updated := p4.DateUpdated }
        else r) }

/-- Delete removes the rows matching the identifier: ErrInvalidID when it
does not parse as a UUID, otherwise success whether or not a row
matched. -/
def Delete (db : DB) (id : String) : Except Err DB :=
  if uuid.ParseOk id then
    .ok { db with products := db.products.filter (fun r => r.product_id != id) }
  else
    .error .ErrInvalidID

end product

namespace web

/-- Modelled from the spec: the web package error kinds (the errors file
is not under src/): a request error carrying an HTTP status, the
shutdown-flagged kind (the spec's IntegrityFault class), and an
unclassified internal error. -/
inductive WebErr where
  | requestError (msg : String) (status : Nat)
  | shutdownError (msg : String)
  | internalError (msg : String)
deriving Repr, DecidableEq

/-- Modelled from the spec: IsShutdown reports whether an error is the
shutdown-flagged kind that must escalate to a graceful shutdown. -/
def IsShutdown : WebErr → Bool
  | .shutdownError _ => true
  | _ => false

/-- The error-capture step of App.Handle: when the handler chain returns
an error it is logged as unhandled, and when IsShutdown holds the app
additionally signals a process-wide graceful shutdown. Returns the pair
(logged an unhandled error, signalled shutdown). -/
def handleOutcome {α : Type} (res : Except WebErr α) : Bool × Bool :=
  match res with
  | .ok _ => (false, false)
  | .error e => (true, IsShutdown e)

/-- The status RespondError renders: a request error keeps its own
status; every other error kind renders as 500 Internal Server Error. -/
def errStatus : WebErr → Nat
  | .requestError _ status => status
  | .shutdownError _ => 500
  | .internalError _ => 500

end web

namespace handlers

/-- The Create handler: without claims in the request context it returns
the shutdown-flagged error; otherwise it creates the product and
responds 201 Created with the entity and the new store. -/
def CreateHandler (ctxClaims : Option auth.Claims) (db : product.DB)
    (np : product.NewProduct) (now : Nat) (freshID : String) :
    Except web.WebErr (Nat × product.Product × product.DB) :=
  match ctxClaims with
  | none => .error (.shutdownError "auth claim is not in context")
  | some claims =>
    let r := product.Create db claims np now freshID
    .ok (201, r.1, r.2)

/-- The Update handler: without claims in the request context it returns
a plain internal error; otherwise it runs the domain update and maps
ErrNotFound to 404, ErrInvalidID to 400, ErrForbidden to 403, success to
204 No Content. -/
def UpdateHandler (ctxClaims : Option auth.Claims) (db : product.DB)
    (id : String) (update : product.UpdateProduct) (now : Nat) :
    Except web.WebErr (Nat × product.DB) :=
  match ctxClaims with
  | none => .error (.internalError "claims is not in context")
  | some claims =>
    match product.Update db claims id update now with
    | .error .ErrNotFound => .error (.requestError "product not found" 404)
    | .error .ErrInvalidID =>
      .error (.requestError "id provided was not a valid UUID" 400)
    | .error .ErrForbidden =>
      .error (.requestError "attempted action is not allowed" 403)
    | .ok newDb => .ok (204, newDb)

/-- The Delete handler: runs the domain delete (which takes no claims at
all) and maps ErrInvalidID to 400, any other error to an internal wrap,
success to 204 No Content. -/
def DeleteHandler (db : product.DB) (id : String) :
    Except web.WebErr (Nat × product.DB) :=
  match product.Delete db id with
  | .error .ErrInvalidID =>
    .error (.requestError "id provided was not a valid UUID" 400)
  | .error _ => .error (.internalError "deleting product")
  | .ok newDb => .ok (204, newDb)

/-- Modelled from the spec: the HasRole middleware (mid package not under
src/) requires the claims resolved by authentication to hold the given
role before invoking the wrapped handler; a caller lacking the role is
rejected as Forbidden (403), and absent claims are an internal error. -/
def hasRoleMW {α : Type} (role : String) (ctxClaims : Option auth.Claims)
    (next : Except web.WebErr α) : Except web.WebErr α :=
  match ctxClaims with
  | none => .error (.internalError "claims missing from context")
  | some c =>
    if c.HasRole role then next
    else .error (.requestError "you are not authorized for that action" 403)

/-- The DELETE /v1/products/id route as bound in the route table: the
admin-role gate wraps the Delete handler; the handler itself never sees
the caller's claims. -/
def DeleteEndpoint (ctxClaims : Option auth.Claims) (db : product.DB)
    (id : String) : Except web.WebErr (Nat × product.DB) :=
  hasRoleMW auth.RoleAdmin ctxClaims (DeleteHandler db id)

end handlers

section SampleValues

/-- A canonical-form identifier used to evaluate the theorems on concrete
input. -/
def sampleID : String := "11111111-2222-3333-4444-555555555555"

/-- A second canonical-form identifier, distinct from sampleID. -/
def sampleID2 : String := "aaaaaaaa-bbbb-cccc-dddd-eeeeeeeeeeee"

/-- A malformed identifier. -/
def badID : String := "not-a-uuid"

/-- A product row owned by user u1. -/
def sampleRow : product.ProductRow :=
  { product_id := sampleID
    name := "Chair"
    cost := 1000
    quantity := 5
    user_id := "u1"
    date_created := 10
    date_updated := 10 }

/-- A store holding the one sample row and no sales. -/
def sampleDB : product.DB :=
  { products := [sampleRow], sales := [] }

/-- Claims of the owner of the sample row, without the admin role. -/
def ownerClaims : auth.Claims := { Subject := "u1", Roles := ["USER"] }

/-- Claims of a different user, without the admin role. -/
def otherClaims : auth.Claims := { Subject := "u2", Roles := ["USER"] }

/-- Claims of an admin who does not own the sample row. -/
def adminClaims : auth.Claims := { Subject := "u9", Roles := ["ADMIN"] }

/-- A second admin, a different identity. -/
def adminClaims2 : auth.Claims := { Subject := "u8", Roles := ["ADMIN", "USER"] }

/-- A partial update presenting only the name field. -/
def sampleUpdate : product.UpdateProduct :=
  { Name := some "Table", Cost := none, Quantity := none }

/-- A new-product input. -/
def sampleNew : product.NewProduct :=
  { Name := "Lamp", Cost := 700, Quantity := 3 }

end SampleValues

/-- Claim C1: when the identifier parses and a product row is found, a
caller without the admin role whose subject differs from the row's
owning user gets ErrForbidden from Update; a caller holding the admin
role or whose subject equals the owner is not rejected as ErrForbidden. -/
theorem C1_update_ownership (db : product.DB) (c : auth.Claims)
    (id : String) (up : product.UpdateProduct) (now : Nat)
    (row : product.ProductRow) (hid : uuid.ParseOk id = true)
    (hfind : product.findRow db id = some row) :
    (c.HasRole auth.RoleAdmin = false → row.user_id ≠ c.Subject →
      product.Update db c id up now = .error .ErrForbidden) ∧
    (c.HasRole auth.RoleAdmin = true ∨ row.user_id = c.Subject →
      product.Update db c id up now ≠ .error .ErrForbidden) := by
  have hret : product.Retrieve db id = .ok (product.rowToProduct db row) := by
    simp [product.Retrieve, hid, hfind]
  constructor
  · intro hrole hne
    simp [product.Update, hret, product.rowToProduct, hrole, hne]
  · intro hor
    rcases hor with h | h <;>
      simp [product.Update, hret, product.rowToProduct, h]

/-- Witness for C1 at concrete inputs: the non-owner non-admin caller is
rejected as ErrForbidden, the owner is not. -/
theorem C1_update_ownership_witness :
    product.Update sampleDB otherClaims sampleID sampleUpdate 20 =
      .error .ErrForbidden ∧
    product.Update sampleDB ownerClaims sampleID sampleUpdate 20 ≠
      .error .ErrForbidden :=
  ⟨(C1_update_ownership sampleDB otherClaims sampleID sampleUpdate 20
      sampleRow (by decide) (by decide)).1 (by decide) (by decide),
   (C1_update_ownership sampleDB ownerClaims sampleID sampleUpdate 20
      sampleRow (by decide) (by decide)).2 (Or.inr (by decide))⟩

/-- Claim C2: when the identifier parses but no product row matches,
Update returns ErrNotFound for every caller: the ownership check is
reached only after the product loads, so a missing resource
short-circuits as ErrNotFound, never ErrForbidden. -/
theorem C2_update_missing_notfound (db : product.DB) (c : auth.Claims)
    (id : String) (up : product.UpdateProduct) (now : Nat)
    (hid : uuid.ParseOk id = true)
    (hfind : product.findRow db id = none) :
    product.Update db c id up now = .error .ErrNotFound := by
  simp [product.Update, product.Retrieve, hid, hfind]

/-- Witness for C2 at concrete inputs: a valid identifier absent from the
store yields ErrNotFound even for a non-owner non-admin caller. -/
theorem C2_update_missing_notfound_witness :
    product.Update sampleDB otherClaims sampleID2 sampleUpdate 20 =
      .error .ErrNotFound :=
  C2_update_missing_notfound sampleDB otherClaims sampleID2 sampleUpdate 20
    (by decide) (by decide)

/-- Claim C4: when the identifier does not parse as a UUID, Retrieve,
Delete and Update each return ErrInvalidID for every store state, every
caller and every update: the result is independent of the store, which
is neither read nor changed. -/
theorem C4_invalid_id (id : String) (h : uuid.ParseOk id = false)
    (db : product.DB) (c : auth.Claims) (up : product.UpdateProduct)
    (now : Nat) :
    product.Retrieve db id = .error .ErrInvalidID ∧
    product.Delete db id = .error .ErrInvalidID ∧
    product.Update db c id up now = .error .ErrInvalidID := by
  refine ⟨?_, ?_, ?_⟩ <;>
    simp [product.Retrieve, product.Delete, product.Update, h]

/-- Witness for C4 at concrete inputs: a malformed identifier yields
ErrInvalidID from all three operations. -/
theorem C4_invalid_id_witness :
    product.Retrieve sampleDB badID = .error .ErrInvalidID ∧
    product.Delete sampleDB badID = .error .ErrInvalidID ∧
    product.Update sampleDB ownerClaims badID sampleUpdate 0 =
      .error .ErrInvalidID :=
  C4_invalid_id badID (by decide) sampleDB ownerClaims sampleUpdate 0

/-- Claim C3: for an existing product and an authorized caller (admin or
owner), Update succeeds and the store changes exactly as follows: rows
with the target identifier take the update's name/cost/quantity where
present (an absent field keeps the prior value from the loaded row) and
date_updated becomes now, while product_id, user_id and date_created are
untouched; rows with other identifiers, and the sales table, are
unchanged. -/
theorem C3_update_frame (db : product.DB) (c : auth.Claims) (id : String)
    (up : product.UpdateProduct) (now : Nat) (row : product.ProductRow)
    (hid : uuid.ParseOk id = true)
    (hfind : product.findRow db id = some row)
    (hauth : c.HasRole auth.RoleAdmin = true ∨ row.user_id = c.Subject) :
    product.Update db c id up now = .ok
      { db with products := db.products.map (fun r =>
          if r.product_id == id then
            { r with
              name := up.Name.getD row.name
              cost := up.Cost.getD row.cost
              quantity := up.Quantity.getD row.quantity
              date_updated := now }
          else r) } := by
  have hret : product.Retrieve db id = .ok (product.rowToProduct db row) := by
    simp [product.Retrieve, hid, hfind]
  rcases up with ⟨n, cst, q⟩
  rcases hauth with h | h <;>
    cases n <;> cases cst <;> cases q <;>
      simp [product.Update, hret, product.rowToProduct, h]

/-- Witness for C3 at concrete inputs: the owner's name-only update
merges the new name, keeps cost and quantity, and stamps date_updated. -/
theorem C3_update_frame_witness :
    product.Update sampleDB ownerClaims sampleID sampleUpdate 20 = .ok
      { sampleDB with products := sampleDB.products.map (fun r =>
          if r.product_id == sampleID then
            { r with
              name := sampleUpdate.Name.getD sampleRow.name
              cost := sampleUpdate.Cost.getD sampleRow.cost
              quantity := sampleUpdate.Quantity.getD sampleRow.quantity
              date_updated := 20 }
          else r) } :=
  C3_update_frame sampleDB ownerClaims sampleID sampleUpdate 20 sampleRow
    (by decide) (by decide) (Or.inr (by decide))

/-- Claim C5: for a well-formed identifier matching no product row,
Retrieve and Update return ErrNotFound, while Delete returns success
with the store unchanged (zero rows affected). -/
theorem C5_delete_missing_success (db : product.DB) (c : auth.Claims)
    (up : product.UpdateProduct) (now : Nat) (id : String)
    (hid : uuid.ParseOk id = true)
    (hfind : product.findRow db id = none) :
    product.Retrieve db id = .error .ErrNotFound ∧
    product.Update db c id up now = .error .ErrNotFound ∧
    product.Delete db id = .ok db := by
  have hall : ∀ r ∈ db.products, (r.product_id != id) = true := by
    intro r hr
    have hne := List.find?_eq_none.mp hfind r hr
    simpa using hne
  have hfilter :
      db.products.filter (fun r => r.product_id != id) = db.products :=
    List.filter_eq_self.mpr hall
  refine ⟨?_, ?_, ?_⟩
  · simp [product.Retrieve, hid, hfind]
  · simp [product.Update, product.Retrieve, hid, hfind]
  · simp [product.Delete, hid, hfilter]

/-- Witness for C5 at concrete inputs: a valid absent identifier gives
ErrNotFound from Retrieve and Update but success from Delete, with the
store returned as it was. -/
theorem C5_delete_missing_success_witness :
    product.Retrieve sampleDB sampleID2 = .error .ErrNotFound ∧
    product.Update sampleDB adminClaims sampleID2 sampleUpdate 20 =
      .error .ErrNotFound ∧
    product.Delete sampleDB sampleID2 = .ok sampleDB :=
  C5_delete_missing_success sampleDB adminClaims sampleUpdate 20 sampleID2
    (by decide) (by decide)

/-- Claim C6: Create always succeeds and returns a product whose
identifier is the freshly generated one (freshID models uuid.New()),
whose owner is the caller's subject, whose name, cost and quantity come
from the input, and whose creation and updated timestamps both equal
now; the store gains exactly the corresponding row. -/
theorem C6_create_fields (db : product.DB) (c : auth.Claims)
    (np : product.NewProduct) (now : Nat) (freshID : String) :
    (product.Create db c np now freshID).1.ID = freshID ∧
    (product.Create db c np now freshID).1.UserID = c.Subject ∧
    (product.Create db c np now freshID).1.Name = np.Name ∧
    (product.Create db c np now freshID).1.Cost = np.Cost ∧
    (product.Create db c np now freshID).1.Quantity = np.Quantity ∧
    (product.Create db c np now freshID).1.DateCreated = now ∧
    (product.Create db c np now freshID).1.DateUpdated = now ∧
    (product.Create db c np now freshID).2 =
      { db with products := db.products ++
          [⟨freshID, np.Name, np.Cost, np.Quantity, c.Subject, now, now⟩] } :=
  ⟨rfl, rfl, rfl, rfl, rfl, rfl, rfl, rfl⟩

/-- Claim C7: Create followed immediately by Retrieve of the identifier
just returned yields a product whose sold and revenue aggregates are 0,
provided the generated identifier is well-formed and fresh and no sale
row is linked to it. -/
theorem C7_create_retrieve_roundtrip (db : product.DB) (c : auth.Claims)
    (np : product.NewProduct) (now : Nat) (freshID : String)
    (hvalid : uuid.ParseOk freshID = true)
    (hfresh : product.findRow db freshID = none)
    (hnosales : ∀ s ∈ db.sales, s.product_id ≠ freshID) :
    ∃ q, product.Retrieve (product.Create db c np now freshID).2 freshID =
        .ok q ∧ q.Sold = 0 ∧ q.Revenue = 0 := by
  have hrowfind :
      product.findRow (product.Create db c np now freshID).2 freshID =
        some ⟨freshID, np.Name, np.Cost, np.Quantity, c.Subject, now, now⟩ := by
    unfold product.findRow at hfresh ⊢
    simp [product.Create, List.find?_append, hfresh]
  have hnosale :
      db.sales.filter (fun s => s.product_id == freshID) = [] := by
    refine List.filter_eq_nil_iff.mpr ?_
    intro s hs
    simpa using hnosales s hs
  refine ⟨product.rowToProduct (product.Create db c np now freshID).2
    ⟨freshID, np.Name, np.Cost, np.Quantity, c.Subject, now, now⟩, ?_, ?_, ?_⟩
  · simp [product.Retrieve, hvalid, hrowfind]
  · simp [product.rowToProduct, product.soldOf, product.Create, hnosale]
  · simp [product.rowToProduct, product.revenueOf, product.Create, hnosale]

/-- Witness for C7 at concrete inputs: creating a product and retrieving
the returned identifier yields sold = 0 and revenue = 0. -/
theorem C7_create_retrieve_roundtrip_witness :
    ∃ q, product.Retrieve
        (product.Create sampleDB ownerClaims sampleNew 30 sampleID2).2
        sampleID2 = .ok q ∧ q.Sold = 0 ∧ q.Revenue = 0 :=
  C7_create_retrieve_roundtrip sampleDB ownerClaims sampleNew 30 sampleID2
    (by decide) (by decide) (by decide)

/-- Claim C8: the pipeline's error-capture step signals the process-wide
graceful shutdown exactly when the handler chain propagated the
shutdown-flagged error kind; a completed request or any other error kind
sends no shutdown signal. -/
theorem C8_shutdown_signal (res : Except web.WebErr Unit) :
    (web.handleOutcome res).2 = true ↔
      ∃ m, res = .error (.shutdownError m) := by
  cases res with
  | ok _ => simp [web.handleOutcome]
  | error e => cases e <;> simp [web.handleOutcome, web.IsShutdown]

/-- Claim C9: the delete route checks only the caller's role: for any two
admin callers the whole endpoint behaves identically whatever their
subjects (the domain Delete takes no claims), and for a well-formed
identifier any admin caller gets 204 with the matching rows removed,
whoever owns them. -/
theorem C9_delete_role_only (c c' : auth.Claims) (db : product.DB)
    (id : String) (h : c.HasRole auth.RoleAdmin = true)
    (h' : c'.HasRole auth.RoleAdmin = true) :
    handlers.DeleteEndpoint (some c) db id =
      handlers.DeleteEndpoint (some c') db id ∧
    (uuid.ParseOk id = true →
      handlers.DeleteEndpoint (some c) db id = .ok (204,
        { db with products :=
            db.products.filter (fun r => r.product_id != id) })) := by
  constructor
  · simp [handlers.DeleteEndpoint, handlers.hasRoleMW, h, h']
  · intro hid
    simp [handlers.DeleteEndpoint, handlers.hasRoleMW, h,
      handlers.DeleteHandler, product.Delete, hid]

/-- Witness for C9 at concrete inputs: two distinct admins get the same
outcome deleting a product neither of them owns, namely 204 with the row
removed. -/
theorem C9_delete_role_only_witness :
    handlers.DeleteEndpoint (some adminClaims) sampleDB sampleID =
      handlers.DeleteEndpoint (some adminClaims2) sampleDB sampleID ∧
    handlers.DeleteEndpoint (some adminClaims) sampleDB sampleID =
      .ok (204, { sampleDB with products :=
        sampleDB.products.filter (fun r => r.product_id != sampleID) }) :=
  ⟨(C9_delete_role_only adminClaims adminClaims2 sampleDB sampleID
      (by decide) (by decide)).1,
   (C9_delete_role_only adminClaims adminClaims2 sampleDB sampleID
      (by decide) (by decide)).2 (by decide)⟩

/-- Claim C10: with claims absent from the request context, the Create
handler returns the shutdown-flagged error, so the pipeline signals the
graceful shutdown, while the Update handler returns a plain internal
error that stays request-scoped and renders as an ordinary 500. -/
theorem C10_missing_claims_asymmetry (db : product.DB)
    (np : product.NewProduct) (up : product.UpdateProduct) (id : String)
    (now : Nat) (freshID : String) :
    handlers.CreateHandler none db np now freshID =
      .error (.shutdownError "auth claim is not in context") ∧
    (web.handleOutcome (handlers.CreateHandler none db np now freshID)).2 =
      true ∧
    handlers.UpdateHandler none db id up now =
      .error (.internalError "claims is not in context") ∧
    (web.handleOutcome (handlers.UpdateHandler none db id up now)).2 =
      false ∧
    web.errStatus (.internalError "claims is not in context") = 500 :=
  ⟨rfl, rfl, rfl, rfl, rfl⟩
